import Mathlib

/-!
Shallow embedding of the session scheduler of the RobotHub inference server
(`src/inference_server/session_manager.py`) and joint-configuration module
(`src/inference_server/models/joint_config.py`), with theorems checking the
claims of the natural-language specification against the code.

Python floats are modelled as rationals for joint values and as integers
for timestamps (timestamps are only ever subtracted and compared against
integral thresholds), byte buffers as lists of naturals, Python dicts as
association lists, and exceptions as `Except` results.
-/

namespace RobotHub

/-- Lookup in an association list (Python `dict.get` / `key in dict`). -/
def lookupAssoc {α : Type} (l : List (String × α)) (k : String) : Option α :=
  (l.find? (fun e => e.1 = k)).map (fun e => e.2)

/-- Set a key in an association list (Python `dict[key] = value`):
replace the value at the first matching key, or append a new binding. -/
def setAssoc {α : Type} : List (String × α) → String → α → List (String × α)
  | [], k, v => [(k, v)]
  | e :: t, k, v => if e.1 = k then (k, v) :: t else e :: setAssoc t k v

/-! ## JointConfig (`models/joint_config.py`) -/

/-- Embeds `JointConfig.LEROBOT_JOINT_NAMES`. -/
def LEROBOT_JOINT_NAMES : List String :=
  ["shoulder_pan_joint", "shoulder_lift_joint", "elbow_joint",
   "wrist_1_joint", "wrist_2_joint", "wrist_3_joint"]

/-- Embeds `JointConfig.CUSTOM_JOINT_NAMES`. -/
def CUSTOM_JOINT_NAMES : List String :=
  ["base_rotation", "shoulder_tilt", "elbow_bend",
   "wrist_rotate", "wrist_tilt", "wrist_twist"]

/-- Embeds `JointConfig.LEROBOT_TO_CUSTOM_NAMES` (reverse of `CUSTOM_TO_LEROBOT_NAMES`). -/
def LEROBOT_TO_CUSTOM_NAMES : List (String × String) :=
  [("shoulder_pan_joint", "base_rotation"),
   ("shoulder_lift_joint", "shoulder_tilt"),
   ("elbow_joint", "elbow_bend"),
   ("wrist_1_joint", "wrist_rotate"),
   ("wrist_2_joint", "wrist_tilt"),
   ("wrist_3_joint", "wrist_twist")]

/-- Embeds `JointConfig.JOINT_LIMITS`: normalized limits per custom joint name.
In the source every one of the six joints is limited to `(-100.0, 100.0)`. -/
def JOINT_LIMITS : List (String × (ℚ × ℚ)) :=
  [("base_rotation", (-100, 100)),
   ("shoulder_tilt", (-100, 100)),
   ("elbow_bend", (-100, 100)),
   ("wrist_rotate", (-100, 100)),
   ("wrist_tilt", (-100, 100)),
   ("wrist_twist", (-100, 100))]

/-- Embeds `np.clip(x, lo, hi)`. -/
def np_clip (x lo hi : ℚ) : ℚ :=
  if x < lo then lo else if x > hi then hi else x

/-- Embeds `JointConfig.validate_joint_values`: pad or truncate to exactly 6 values,
then clamp slot `i` to `JOINT_LIMITS[CUSTOM_JOINT_NAMES[i]]`. -/
def validate_joint_values (joint_values : List ℚ) : List ℚ :=
  let jv :=
    if joint_values.length ≠ 6 then
      joint_values.take 6 ++ List.replicate (6 - joint_values.length) (0 : ℚ)
    else joint_values
  List.zipWith
    (fun (x : ℚ) (name : String) =>
      match lookupAssoc JOINT_LIMITS name with
      | some lims => np_clip x lims.1 lims.2
      | none => x)
    jv CUSTOM_JOINT_NAMES

/-- A joint payload as seen by `parse_joint_data`: either a Python dict
(with numeric values) or some non-dict object. -/
inductive JointsPayload where
  | dict (entries : List (String × ℚ))
  | nonDict
  deriving DecidableEq

/-- The raw argument of the joint callback: the source first unwraps a
`.data` attribute when present (`hasattr(joints_data, "data")`), otherwise
uses the object itself. -/
inductive JointsData where
  | withDataAttr (payload : JointsPayload)
  | plain (payload : JointsPayload)
  deriving DecidableEq

/-- The `joint_dict` extraction at the top of `parse_joint_data`. -/
def jointDictOf : JointsData → JointsPayload
  | .withDataAttr p => p
  | .plain p => p

/-- The fallback loop of `parse_joint_data`: try each candidate key in order
(skipping `None` keys), returning the first value found; the caller turns a
miss into `0.0`. -/
def tryFallbackKeys (entries : List (String × ℚ)) :
    List (Option String) → Option ℚ
  | [] => none
  | none :: rest => tryFallbackKeys entries rest
  | some k :: rest =>
    match lookupAssoc entries k with
    | some v => some v
    | none => tryFallbackKeys entries rest

/-- One slot of `parse_joint_data`: the value extracted for one LeRobot
joint name (LeRobot name first, then custom name, then the common-format
fallbacks; `0.0` when nothing matches). -/
def parseJointSlot (entries : List (String × ℚ)) (lerobot_name : String) : ℚ :=
  match lookupAssoc entries lerobot_name with
  | some v => v
  | none =>
    let custom_name := lookupAssoc LEROBOT_TO_CUSTOM_NAMES lerobot_name
    match custom_name with
    | some cn =>
      match lookupAssoc entries cn with
      | some v => v
      | none =>
        (tryFallbackKeys entries
          [some lerobot_name, some ("joint_" ++ lerobot_name),
           some lerobot_name.toUpper, some cn, some ("joint_" ++ cn)]).getD 0
    | none =>
      (tryFallbackKeys entries
        [some lerobot_name, some ("joint_" ++ lerobot_name),
         some lerobot_name.toUpper, none, none]).getD 0

/-- Embeds `JointConfig.parse_joint_data`: a non-dict payload yields `[0.0] * 6`;
a dict yields the six values in LeRobot standard order. -/
def parse_joint_data (joints_data : JointsData) : List ℚ :=
  match jointDictOf joints_data with
  | .nonDict => List.replicate 6 (0 : ℚ)
  | .dict entries => LEROBOT_JOINT_NAMES.map (parseJointSlot entries)

/-- Embeds `JointConfig.create_joint_commands`: pair each custom joint name with the
action value at its index, keeping only indices present in the action. -/
def create_joint_commands (action_values : List ℚ) : List (String × ℚ) :=
  (List.range CUSTOM_JOINT_NAMES.length).filterMap (fun i =>
    match CUSTOM_JOINT_NAMES.get? i, action_values.get? i with
    | some name, some v => some (name, v)
    | _, _ => none)

/-- Embeds `BaseInferenceEngine.get_joint_commands_with_names`: validate/clamp the
action, then build named commands. -/
def get_joint_commands_with_names (action : List ℚ) : List (String × ℚ) :=
  create_joint_commands (validate_joint_values action)

/-! ## Action queue (`deque(maxlen=100)` plus the periodic cleanup) -/

/-- One joint-command dict list, the unit stored in the action queue. -/
abbrev JointCommands := List (String × ℚ)

/-- Capacity of `InferenceSession.action_queue`: `deque(maxlen=100)`. -/
def action_queue_maxlen : ℕ := 100

/-- Embeds `InferenceSession.n_action_steps`. -/
def n_action_steps : ℕ := 10

/-- Embeds `InferenceSession.queue_cleanup_interval` (seconds). -/
def queue_cleanup_interval : ℤ := 10

/-- Embeds `deque.append` on a deque with a `maxlen`: when appending would exceed
the bound, oldest entries are evicted from the left. -/
def dequeAppend {α : Type} (maxlen : ℕ) (q : List α) (a : α) : List α :=
  let q2 := q ++ [a]
  if maxlen < q2.length then q2.drop (q2.length - maxlen) else q2

/-- A push or pop on the action queue (`append` / `popleft`). -/
inductive QueueOp where
  | push (commands : JointCommands)
  | pop

/-- Apply one queue operation. -/
def applyQueueOp (q : List JointCommands) : QueueOp → List JointCommands
  | .push c => dequeAppend action_queue_maxlen q c
  | .pop => q.tail

/-- Apply a sequence of queue operations starting from `q`. -/
def applyQueueOps (q : List JointCommands) (ops : List QueueOp) :
    List JointCommands :=
  ops.foldl applyQueueOp q

/-- The periodic-cleanup block at the bottom of `_inference_loop`: when the
cleanup interval has elapsed, clear the whole queue if it holds more than 80
entries (80% of `maxlen`); returns the new queue and `last_queue_cleanup`. -/
def maybe_flush_queue (current_time last_queue_cleanup : ℤ)
    (q : List JointCommands) : List JointCommands × ℤ :=
  if current_time - last_queue_cleanup > queue_cleanup_interval then
    (if 80 < q.length then [] else q, current_time)
  else
    (q, last_queue_cleanup)

/-! ## Session state (`InferenceSession`) -/

/-- A decoded camera frame (`np.frombuffer(...).reshape((height, width, 3))`):
the raw bytes plus dimensions. -/
structure Frame where
  data : List ℕ
  width : ℕ
  height : ℕ
  deriving DecidableEq

/-- The `stats` dict of an `InferenceSession`. -/
structure Stats where
  inference_count : ℕ
  images_received : List (String × ℕ)
  joints_received : ℕ
  commands_sent : ℕ
  errors : ℕ
  actions_in_queue : ℕ
  deriving DecidableEq

/-- The inference engine as the scheduler sees it: only whether `reset()` has
been called on it matters here. -/
structure EngineState where
  was_reset : Bool
  deriving DecidableEq

/-- The mutable state of one `InferenceSession` relevant to the scheduler:
data buffers, freshness flags, action queue, status string, statistics, and
timing fields.  `control_frequency_hz` and friends are constants below. -/
structure InferenceSession where
  camera_names : List String
  latest_images : List (String × Frame)
  latest_joint_positions : Option (List ℚ)
  complete_joint_state : List ℚ
  images_updated : List (String × Bool)
  joints_updated : Bool
  action_queue : List JointCommands
  status : String
  stats : Stats
  last_command_values : Option (List ℚ)
  last_activity_time : ℤ
  last_queue_cleanup : ℤ
  inference_engine : Option EngineState
  has_inference_task : Bool
  deriving DecidableEq

/-- Embeds `InferenceSession.control_frequency_hz`. -/
def control_frequency_hz : ℕ := 20

/-- Embeds `InferenceSession.inference_frequency_hz`. -/
def inference_frequency_hz : ℕ := 2

/-- Embeds `inference_interval = control_frequency_hz // inference_frequency_hz`
(computed at the top of `_inference_loop`). -/
def inference_interval : ℕ := control_frequency_hz / inference_frequency_hz

/-- Embeds `InferenceSession.timeout_seconds` (10 minutes). -/
def timeout_seconds : ℤ := 600

/-- The `asyncio.sleep(60)` poll period of `_timeout_monitor`. -/
def monitor_poll_seconds : ℤ := 60

/-- The `asyncio.sleep(300)` poll period of `SessionManager._periodic_cleanup`. -/
def cleanup_poll_seconds : ℤ := 300

/-- Buffers of a fresh session, as set up in `InferenceSession.__init__`
(status is then moved to "ready" at the end of `initialize`). -/
def initSession (camera_names : List String) (now : ℤ) : InferenceSession :=
  { camera_names := camera_names
    latest_images := []
    latest_joint_positions := none
    complete_joint_state := List.replicate 6 (0 : ℚ)
    images_updated := camera_names.map (fun c => (c, false))
    joints_updated := false
    action_queue := []
    status := "initializing"
    stats :=
      { inference_count := 0
        images_received := camera_names.map (fun c => (c, 0))
        joints_received := 0
        commands_sent := 0
        errors := 0
        actions_in_queue := 0 }
    last_command_values := none
    last_activity_time := now
    last_queue_cleanup := now
    inference_engine := some { was_reset := false }
    has_inference_task := false }

/-! ## Ingestion callbacks (`_setup_callbacks`) -/

/-- The raw frame event delivered to a camera callback: metadata entries
(absent keys fall back to the defaults of `metadata.get`) plus the byte
payload. -/
structure FrameData where
  width? : Option ℕ
  height? : Option ℕ
  format? : Option String
  data : List ℕ
  deriving DecidableEq

/-- The per-camera frame callback built by `create_frame_callback`:
only `rgb24` frames with positive dimensions are considered; a byte-length
mismatch against `height * width * 3` bumps the error counter and discards
the frame; otherwise the frame is stored, the freshness flag of the camera is
set, its received counter is bumped and `last_activity_time` refreshed. -/
def on_frame_received (camera_name : String) (now : ℤ) (fd : FrameData)
    (s : InferenceSession) : InferenceSession :=
  let width := fd.width?.getD 0
  let height := fd.height?.getD 0
  let format_type := fd.format?.getD "rgb24"
  if format_type = "rgb24" ∧ 0 < width ∧ 0 < height then
    let expected_size := height * width * 3
    if fd.data.length ≠ expected_size then
      { s with stats := { s.stats with errors := s.stats.errors + 1 } }
    else
      { s with
          latest_images :=
            setAssoc s.latest_images camera_name ⟨fd.data, width, height⟩
          images_updated := setAssoc s.images_updated camera_name true
          stats :=
            { s.stats with
                images_received :=
                  setAssoc s.stats.images_received camera_name
                    ((lookupAssoc s.stats.images_received camera_name).getD 0 + 1) }
          last_activity_time := now }
  else
    s

/-- Overwrite the first slots of `base` with `vals`
(`for i, value in enumerate(vals): base[i] = value`). -/
def writeSlots : List ℚ → List ℚ → List ℚ
  | base, [] => base
  | [], _ => []
  | _ :: bt, v :: vt => v :: writeSlots bt vt

/-- The joint callback `on_joints_received`: parse the payload into six
values (always succeeds), write them into `complete_joint_state`, publish a
copy as `latest_joint_positions`, set the joint freshness flag, bump the
received counter and refresh `last_activity_time`.  The `if joint_values:`
truthiness test only skips the update for an empty list. -/
def on_joints_received (now : ℤ) (joints_data : JointsData)
    (s : InferenceSession) : InferenceSession :=
  let joint_values := parse_joint_data joints_data
  if joint_values = [] then s
  else
    let cjs := writeSlots s.complete_joint_state (joint_values.take 6)
    { s with
        complete_joint_state := cjs
        latest_joint_positions := some cjs
        joints_updated := true
        stats := { s.stats with joints_received := s.stats.joints_received + 1 }
        last_activity_time := now }

/-! ## Lifecycle operations -/

/-- Embeds `InferenceSession.start_inference`: raises unless the status is exactly
"ready"; on success moves to "running" and spawns the control-loop task. -/
def start_inference (s : InferenceSession) : Except String InferenceSession :=
  if s.status ≠ "ready" then
    .error ("Session not ready. Current status: " ++ s.status)
  else
    .ok { s with status := "running", has_inference_task := true }

/-- Embeds `InferenceSession.stop_inference`: cancels the control-loop task when one
exists and unconditionally sets the status to "stopped". -/
def stop_inference (s : InferenceSession) : InferenceSession :=
  { s with status := "stopped", has_inference_task := false }

/-- Embeds `InferenceSession._reset_session_state`: clears the action queue, zeroes
the complete joint state, clears every camera freshness flag and the joint
flag, resets `last_queue_cleanup`, resets the inference engine when present,
and zeroes `stats["actions_in_queue"]`. -/
def _reset_session_state (now : ℤ) (s : InferenceSession) : InferenceSession :=
  { s with
      action_queue := []
      complete_joint_state := s.complete_joint_state.map (fun _ => (0 : ℚ))
      images_updated :=
        s.camera_names.foldl (fun m c => setAssoc m c false) s.images_updated
      joints_updated := false
      last_queue_cleanup := now
      inference_engine := s.inference_engine.map (fun _ => { was_reset := true })
      stats := { s.stats with actions_in_queue := 0 } }

/-- Embeds `InferenceSession.restart_inference`: stop, reset the internal state,
then start again. -/
def restart_inference (now : ℤ) (s : InferenceSession) :
    Except String InferenceSession :=
  start_inference (_reset_session_state now (stop_inference s))

/-- One poll iteration of `_timeout_monitor`: when the inactivity time
exceeds `timeout_seconds` the status becomes "timeout" and the monitor
exits (second component `true`); it never deletes the session. -/
def timeout_monitor_poll (current_time : ℤ) (s : InferenceSession) :
    InferenceSession × Bool :=
  let inactive_time := current_time - s.last_activity_time
  if inactive_time > timeout_seconds then
    ({ s with status := "timeout" }, true)
  else
    (s, false)

/-! ## The control-loop tick (`_inference_loop` body) -/

/-- Embeds `InferenceSession._all_cameras_have_data`: membership of every declared
camera name in `latest_images` (NOT the freshness flags). -/
def _all_cameras_have_data (s : InferenceSession) : Bool :=
  s.camera_names.all (fun c => (lookupAssoc s.latest_images c).isSome)

/-- The value returned by the prediction capability: a rank-1 array (one
action) or a rank-2 array (a chunk of actions). -/
inductive PredictResult where
  | single (action : List ℚ)
  | chunk (actions : List (List ℚ))

/-- What one loop iteration produced, besides the updated session. -/
structure TickResult where
  session : InferenceSession
  next_counter : ℕ
  inference_invoked : Bool
  command_sent : Option JointCommands

/-- The readiness gate at the top of the tick:
`self._all_cameras_have_data() and self.latest_joint_positions is not None`. -/
def readiness_gate (s : InferenceSession) : Bool :=
  _all_cameras_have_data s && s.latest_joint_positions.isSome

/-- Embeds `should_run_inference = len(queue) == 0 or
(counter % inference_interval == 0 and len(queue) < 3)`. -/
def should_run_inference (inference_counter : ℕ) (s : InferenceSession) :
    Bool :=
  s.action_queue.length == 0 ||
    (decide (inference_counter % inference_interval = 0) &&
      decide (s.action_queue.length < 3))

/-- The `try:` body of one inference run: fix a wrong-shaped
`latest_joint_positions`, then call `predict`.  On failure, the error counter
is bumped and the queue is untouched.  On success, up to `n_action_steps`
commands from the returned batch are appended to the queue, the inference
counter is bumped, and every camera freshness flag plus the joint flag is
cleared. -/
def run_inference_step (predict_outcome : Except String PredictResult)
    (s : InferenceSession) : InferenceSession :=
  let sFix :=
    if (s.latest_joint_positions.getD []).length ≠ 6 then
      { s with latest_joint_positions := some s.complete_joint_state }
    else s
  match predict_outcome with
  | .error _ =>
    { sFix with stats := { sFix.stats with errors := sFix.stats.errors + 1 } }
  | .ok predicted_actions =>
    let actions_to_queue :=
      match predicted_actions with
      | .single a => [a]
      | .chunk l => l.take n_action_steps
    { sFix with
        action_queue :=
          actions_to_queue.foldl
            (fun q a =>
              dequeAppend action_queue_maxlen q
                (get_joint_commands_with_names a))
            sFix.action_queue
        stats :=
          { sFix.stats with
              inference_count := sFix.stats.inference_count + 1 }
        images_updated :=
          sFix.camera_names.foldl (fun m c => setAssoc m c false)
            sFix.images_updated
        joints_updated := false }

/-- The dispatch step: if the queue is non-empty, pop its head and send it;
a successful send bumps `commands_sent` and records the command values, a
failed send bumps the error counter (the command is popped either way). -/
def send_step (send_ok : Bool) (s1 : InferenceSession) :
    InferenceSession × Option JointCommands :=
  if 0 < s1.action_queue.length then
    let joint_commands := s1.action_queue.headD []
    let rest := s1.action_queue.tail
    if send_ok then
      ({ s1 with
          action_queue := rest
          stats :=
            { s1.stats with
                commands_sent := s1.stats.commands_sent + 1
                actions_in_queue := rest.length }
          last_command_values := some (joint_commands.map (fun c => c.2)) },
        some joint_commands)
    else
      ({ s1 with
          action_queue := rest
          stats := { s1.stats with errors := s1.stats.errors + 1 } },
        some joint_commands)
  else (s1, none)

/-- One iteration of the `while True:` body of `_inference_loop`.

External effects are parameters: `predict_outcome` is what
`inference_engine.predict` would return (or the exception it would raise)
if invoked this tick, and `send_ok` is whether
`joint_output_producer.send_joint_update` would succeed.

Phases, as in the source: (1) if all cameras have data and joint data has
arrived, decide `should_run_inference`, possibly run inference, then pop and
send one queued command when available; (2) the periodic queue cleanup,
which runs whether or not the gate held; (3) increment the counter. -/
def inference_loop_tick (inference_counter : ℕ) (current_time : ℤ)
    (predict_outcome : Except String PredictResult) (send_ok : Bool)
    (s : InferenceSession) : TickResult :=
  let phase1 :=
    if readiness_gate s then
      let s1 :=
        if should_run_inference inference_counter s then
          run_inference_step predict_outcome s
        else s
      let ss := send_step send_ok s1
      (ss.1, should_run_inference inference_counter s, ss.2)
    else (s, false, none)
  let s2 := phase1.1
  let flushed :=
    maybe_flush_queue current_time s2.last_queue_cleanup s2.action_queue
  { session :=
      { s2 with action_queue := flushed.1, last_queue_cleanup := flushed.2 }
    next_counter := inference_counter + 1
    inference_invoked := phase1.2.1
    command_sent := phase1.2.2 }

/-! ## SessionManager -/

/-- The registry: its map of session id to session. -/
structure SessionManager where
  sessions : List (String × InferenceSession)

/-- The slice of `InferenceSession.get_status` the claims need. -/
structure StatusSnapshot where
  session_id : String
  status : String
  stats : Stats
  deriving DecidableEq

/-- Embeds `SessionManager.get_session_status`: not-found error for an unregistered
id, otherwise a snapshot of the session. -/
def get_session_status (m : SessionManager) (session_id : String) :
    Except String StatusSnapshot :=
  match lookupAssoc m.sessions session_id with
  | none => .error ("Session " ++ session_id ++ " not found")
  | some s => .ok { session_id := session_id, status := s.status, stats := s.stats }

/-- One sweep iteration of `SessionManager._periodic_cleanup`: collect the
ids of sessions whose status is "timeout", then delete each of them. -/
def periodic_cleanup_sweep (m : SessionManager) : SessionManager :=
  let timed_out :=
    (m.sessions.filter (fun e => e.2.status = "timeout")).map (fun e => e.1)
  { sessions := m.sessions.filter (fun e => ¬ e.1 ∈ timed_out) }

/-! ## Helper lemmas -/

/-- After an append with `maxlen = m`, the length is at most `m`. -/
theorem dequeAppend_length_le_maxlen {α : Type} (m : ℕ) (q : List α) (a : α) :
    (dequeAppend m q a).length ≤ m := by
  unfold dequeAppend
  by_cases h : m < (q ++ [a]).length
  · simp only [h, if_true, List.length_drop]
    omega
  · simp only [h, if_false]
    omega

/-- Any sequence of pushes and pops keeps the queue within its capacity. -/
theorem applyQueueOps_length_le (ops : List QueueOp) :
    ∀ q : List JointCommands, q.length ≤ action_queue_maxlen →
      (applyQueueOps q ops).length ≤ action_queue_maxlen := by
  induction ops with
  | nil => intro q h; simpa [applyQueueOps] using h
  | cons op rest ih =>
    intro q h
    have hstep : (applyQueueOp q op).length ≤ action_queue_maxlen := by
      cases op with
      | push c => exact dequeAppend_length_le_maxlen _ _ _
      | pop =>
        simp only [applyQueueOp, List.length_tail]
        omega
    simpa [applyQueueOps, List.foldl_cons] using ih (applyQueueOp q op) hstep

/-! ## Claim theorems -/

/-- C3: for every sequence of pushes and pops the action queue length never
exceeds its capacity `C = 100` (oldest entries evicted first when full), and
whenever the flush check fires (cleanup interval elapsed) with occupancy
above the 80-entry high-water mark (80% of `C`), the queue is cleared to
exactly empty, never partially trimmed. -/
theorem claim_C3_queue_bound_and_flush :
    (∀ ops : List QueueOp,
      (applyQueueOps [] ops).length ≤ action_queue_maxlen) ∧
    action_queue_maxlen = 100 ∧
    (∀ (current_time last_cleanup : ℤ) (q : List JointCommands),
      current_time - last_cleanup > queue_cleanup_interval →
      80 < q.length →
      (maybe_flush_queue current_time last_cleanup q).1 = []) := by
  refine ⟨fun ops => applyQueueOps_length_le ops [] (by simp), rfl, ?_⟩
  intro ct lc q h1 h2
  simp [maybe_flush_queue, h1, h2]

/-- Witness for C3 at concrete inputs. -/
theorem claim_C3_witness :
    (applyQueueOps [] [QueueOp.push [], QueueOp.pop]).length ≤
      action_queue_maxlen ∧
    ((20 : ℤ) - 0 > queue_cleanup_interval ∧
      80 < (List.replicate 81 ([] : JointCommands)).length ∧
      (maybe_flush_queue 20 0 (List.replicate 81 ([] : JointCommands))).1 = []) :=
  ⟨claim_C3_queue_bound_and_flush.1 _,
    by norm_num [queue_cleanup_interval],
    by simp,
    claim_C3_queue_bound_and_flush.2.2 20 0 _
      (by norm_num [queue_cleanup_interval]) (by simp)⟩

/-- If `x` is in a `zipWith`, it is the image of a pair of members. -/
theorem exists_of_mem_zipWith {α β γ : Type} (f : α → β → γ) :
    ∀ (l1 : List α) (l2 : List β) (x : γ), x ∈ List.zipWith f l1 l2 →
      ∃ a b, a ∈ l1 ∧ b ∈ l2 ∧ x = f a b := by
  intro l1
  induction l1 with
  | nil => intro l2 x h; simp at h
  | cons a t ih =>
    intro l2 x h
    cases l2 with
    | nil => simp at h
    | cons b t2 =>
      simp only [List.zipWith_cons_cons, List.mem_cons] at h
      rcases h with h | h
      · exact ⟨a, b, by simp, by simp, h⟩
      · obtain ⟨a2, b2, ha, hb, hx⟩ := ih t2 x h
        exact ⟨a2, b2, by simp [ha], by simp [hb], hx⟩

/-- The function `np_clip` lands inside `[lo, hi]` whenever `lo ≤ hi`. -/
theorem np_clip_bounds (x lo hi : ℚ) (h : lo ≤ hi) :
    lo ≤ np_clip x lo hi ∧ np_clip x lo hi ≤ hi := by
  unfold np_clip
  split_ifs <;> constructor <;> linarith

/-- The function `validate_joint_values` always returns exactly 6 values. -/
theorem validate_joint_values_length (jv : List ℚ) :
    (validate_joint_values jv).length = 6 := by
  unfold validate_joint_values
  by_cases h : jv.length = 6
  · simp [h, CUSTOM_JOINT_NAMES]
  · simp only [h, ne_eq, not_false_eq_true, ite_true, ite_false,
      List.length_zipWith, List.length_append, List.length_take,
      List.length_replicate]
    simp [CUSTOM_JOINT_NAMES]
    omega

/-- C7 counterexample: on the all-(-50) input the validator returns every
slot unchanged at -50, so no slot behaves as a gripper joint limited to
`[0, 100]` — the configured limits clamp all six joints to `[-100, 100]`. -/
theorem claim_C7_counterexample :
    validate_joint_values (List.replicate 6 (-50 : ℚ)) =
      List.replicate 6 (-50 : ℚ) ∧
    ¬ ∃ g : Fin 6, (0 : ℚ) ≤
      (validate_joint_values (List.replicate 6 (-50 : ℚ))).getD g.val 0 := by
  constructor
  · decide
  · decide

/-- C7 (amended): joint-value validation clamps/pads any supplied vector to
exactly 6 values before use, with ALL six joints limited to `[-100, 100]`
(the configured limits contain no `[0, 100]` gripper range); out-of-range
inputs are silently clamped, never rejected. -/
theorem claim_C7_amended_clamp (jv : List ℚ) :
    (validate_joint_values jv).length = 6 ∧
    (∀ x ∈ validate_joint_values jv, -100 ≤ x ∧ x ≤ 100) ∧
    (∀ name ∈ CUSTOM_JOINT_NAMES,
      lookupAssoc JOINT_LIMITS name = some (-100, 100)) := by
  refine ⟨validate_joint_values_length jv, ?_, by decide⟩
  intro x hx
  unfold validate_joint_values at hx
  obtain ⟨a, b, _, hb, hx⟩ := exists_of_mem_zipWith _ _ _ _ hx
  have hlims : lookupAssoc JOINT_LIMITS b = some (-100, 100) := by
    simp only [CUSTOM_JOINT_NAMES, List.mem_cons, List.not_mem_nil,
      or_false] at hb
    rcases hb with rfl | rfl | rfl | rfl | rfl | rfl <;> decide
  rw [hx, hlims]
  exact np_clip_bounds a (-100) 100 (by norm_num)

/-- Witness for C7 at a concrete out-of-range input. -/
theorem claim_C7_witness :
    (validate_joint_values [(-200 : ℚ), 200, 0, 5, -5, 7]).length = 6 ∧
    ((-100 : ℚ) ≤ -100 ∧ (-100 : ℚ) ≤ 100) ∧
    lookupAssoc JOINT_LIMITS "wrist_twist" = some (-100, 100) :=
  ⟨(claim_C7_amended_clamp [(-200 : ℚ), 200, 0, 5, -5, 7]).1,
    (claim_C7_amended_clamp [(-200 : ℚ), 200, 0, 5, -5, 7]).2.1 (-100)
      (by decide),
    (claim_C7_amended_clamp [(-200 : ℚ), 200, 0, 5, -5, 7]).2.2 "wrist_twist"
      (by decide)⟩

/-- What one tick invokes: the prediction capability runs exactly when the
readiness gate and the cadence condition both hold. -/
theorem inference_loop_tick_invoked (counter : ℕ) (ct : ℤ)
    (po : Except String PredictResult) (ok : Bool) (s : InferenceSession) :
    (inference_loop_tick counter ct po ok s).inference_invoked =
      (readiness_gate s && should_run_inference counter s) := by
  unfold inference_loop_tick
  by_cases h : readiness_gate s = true
  · simp [h]
  · simp only [Bool.not_eq_true] at h
    simp [h]

/-- A session whose single camera has a stored frame and whose joint data has
arrived, used as a concrete readiness witness. -/
def sampleGateSession : InferenceSession :=
  { initSession ["front"] 0 with
      status := "running"
      latest_images := [("front", ⟨[0, 0, 0], 1, 1⟩)]
      latest_joint_positions := some (List.replicate 6 (0 : ℚ)) }

/-- C2: on a tick where the readiness condition holds, inference runs iff the
action queue is empty, or the tick index is a multiple of
`inference_interval` and the queue holds fewer than 3 entries, where
`inference_interval = floor(control_hz / inference_hz) = 20 / 2 = 10`. -/
theorem claim_C2_cadence (counter : ℕ) (ct : ℤ)
    (po : Except String PredictResult) (ok : Bool) (s : InferenceSession)
    (hgate : readiness_gate s = true) :
    ((inference_loop_tick counter ct po ok s).inference_invoked = true ↔
      (s.action_queue.length = 0 ∨
        (counter % inference_interval = 0 ∧ s.action_queue.length < 3))) ∧
    inference_interval = control_frequency_hz / inference_frequency_hz ∧
    inference_interval = 10 := by
  refine ⟨?_, rfl, rfl⟩
  rw [inference_loop_tick_invoked, hgate, Bool.true_and]
  simp [should_run_inference]

/-- Witness for C2 on a concrete ready session at tick 0. -/
theorem claim_C2_witness :
    readiness_gate sampleGateSession = true ∧
    (((inference_loop_tick 0 0 (.ok (.chunk [])) true
        sampleGateSession).inference_invoked = true ↔
      (sampleGateSession.action_queue.length = 0 ∨
        (0 % inference_interval = 0 ∧
          sampleGateSession.action_queue.length < 3))) ∧
    inference_interval = control_frequency_hz / inference_frequency_hz ∧
    inference_interval = 10) :=
  ⟨by decide, claim_C2_cadence 0 0 (.ok (.chunk [])) true sampleGateSession
    (by decide)⟩

/-- The session state reached from a fresh running session after one frame,
one joint message, and one tick that ran inference (consuming the data and
clearing both freshness flags) and dispatched the single queued command. -/
def consumedSession : InferenceSession :=
  (inference_loop_tick 0 0 (.ok (.chunk [List.replicate 6 (0 : ℚ)])) true
    (on_joints_received 0 (.plain (.dict []))
      (on_frame_received "front" 0 ⟨some 1, some 1, none, [0, 0, 0]⟩
        { initSession ["front"] 0 with status := "running" }))).session

/-- C1 counterexample: after inference consumed the only frame (the
camera freshness flag is back to `false` and no new frame arrived), the next
tick still invokes the prediction capability — the gate tests membership in
`latest_images`, not the freshness flags, so "at least one frame since the
last consumption" is not required. -/
theorem claim_C1_counterexample :
    lookupAssoc consumedSession.images_updated "front" = some false ∧
    consumedSession.action_queue = [] ∧
    (inference_loop_tick 1 0 (.ok (.chunk [])) true
      consumedSession).inference_invoked = true := by
  refine ⟨by decide, by decide, by decide⟩

/-- C1 (amended): on every tick, the prediction capability is invoked only if
every declared camera has delivered at least one frame since the session
started (it is present in `latest_images`, regardless of its freshness flag)
AND at least one joint message has ever arrived; while either condition is
absent, zero inference calls occur on that tick. -/
theorem claim_C1_amended_gate (counter : ℕ) (ct : ℤ)
    (po : Except String PredictResult) (ok : Bool) (s : InferenceSession) :
    ((inference_loop_tick counter ct po ok s).inference_invoked = true →
      (_all_cameras_have_data s = true ∧
        s.latest_joint_positions.isSome = true)) ∧
    ((_all_cameras_have_data s = false ∨
        s.latest_joint_positions.isSome = false) →
      (inference_loop_tick counter ct po ok s).inference_invoked = false) := by
  constructor
  · intro h
    rw [inference_loop_tick_invoked] at h
    have hg : readiness_gate s = true := by
      rcases Bool.and_eq_true _ _ |>.mp h with ⟨hg, _⟩
      exact hg
    exact Bool.and_eq_true _ _ |>.mp hg
  · intro h
    rw [inference_loop_tick_invoked]
    have hg : readiness_gate s = false := by
      unfold readiness_gate
      rcases h with h | h <;> simp [h]
    simp [hg]

/-- Witness for C1 on a fresh session with no camera data: zero inference. -/
theorem claim_C1_witness :
    (_all_cameras_have_data (initSession ["front"] 0) = false ∨
      (initSession ["front"] 0).latest_joint_positions.isSome = false) ∧
    (inference_loop_tick 0 0 (.ok (.chunk [])) true
      (initSession ["front"] 0)).inference_invoked = false :=
  ⟨Or.inl (by decide),
    (claim_C1_amended_gate 0 0 (.ok (.chunk [])) true
      (initSession ["front"] 0)).2 (Or.inl (by decide))⟩

/-- Unfolding `lookupAssoc` over a cons cell. -/
theorem lookupAssoc_cons {α : Type} (e : String × α) (t : List (String × α))
    (k : String) :
    lookupAssoc (e :: t) k = if e.1 = k then some e.2 else lookupAssoc t k := by
  by_cases h : e.1 = k
  · simp [lookupAssoc, List.find?, h]
  · simp [lookupAssoc, List.find?, h]

/-- Looking up the key just set returns the new value. -/
theorem lookupAssoc_setAssoc_self {α : Type} (m : List (String × α))
    (k : String) (v : α) : lookupAssoc (setAssoc m k v) k = some v := by
  induction m with
  | nil => simp [setAssoc, lookupAssoc_cons, lookupAssoc]
  | cons e t ih =>
    by_cases h : e.1 = k
    · simp [setAssoc, h, lookupAssoc_cons]
    · simp [setAssoc, h, lookupAssoc_cons, ih]

/-- Setting one key does not change the lookup of another. -/
theorem lookupAssoc_setAssoc_ne {α : Type} (m : List (String × α))
    (k k2 : String) (v : α) (h : k2 ≠ k) :
    lookupAssoc (setAssoc m k v) k2 = lookupAssoc m k2 := by
  induction m with
  | nil => simp [setAssoc, lookupAssoc_cons, lookupAssoc, Ne.symm h]
  | cons e t ih =>
    by_cases he : e.1 = k
    · rw [setAssoc, if_pos he, lookupAssoc_cons, lookupAssoc_cons, he]
      simp [Ne.symm h]
    · rw [setAssoc, if_neg he, lookupAssoc_cons, lookupAssoc_cons, ih]

/-- After folding `setAssoc · · false` over a list of names, every name in
the list maps to `false`. -/
theorem lookupAssoc_foldl_set_false (names : List String) :
    ∀ (m : List (String × Bool)) (c : String), c ∈ names →
      lookupAssoc (names.foldl (fun m2 n => setAssoc m2 n false) m) c =
        some false := by
  induction names with
  | nil => intro m c hc; simp at hc
  | cons n rest ih =>
    intro m c hc
    rw [List.foldl_cons]
    by_cases hcr : c ∈ rest
    · exact ih _ c hcr
    · have hcn : c = n := by
        rcases List.mem_cons.mp hc with h | h
        · exact h
        · exact absurd h hcr
      subst hcn
      -- c is set to false first; every later fold step preserves that value
      have preserve : ∀ (l : List String) (m2 : List (String × Bool)),
          lookupAssoc m2 c = some false →
          lookupAssoc (l.foldl (fun m3 n2 => setAssoc m3 n2 false) m2) c =
            some false := by
        intro l
        induction l with
        | nil => intro m2 h2; simpa using h2
        | cons x xs ihx =>
          intro m2 h2
          rw [List.foldl_cons]
          apply ihx
          by_cases hxc : c = x
          · subst hxc; exact lookupAssoc_setAssoc_self m2 c false
          · rw [lookupAssoc_setAssoc_ne m2 x c false hxc]; exact h2
      exact preserve rest _ (lookupAssoc_setAssoc_self m c false)

/-- C4 (code behavior at the failing input): `start_inference` succeeds only
from status "ready"; from "stopped" — which the spec lists as startable — it
raises "Session not ready" and performs no state change. -/
theorem claim_C4_start_only_accepts_ready :
    (∀ s : InferenceSession, s.status = "ready" →
      start_inference s =
        .ok { s with status := "running", has_inference_task := true }) ∧
    (∀ s : InferenceSession, s.status ≠ "ready" →
      start_inference s =
        .error ("Session not ready. Current status: " ++ s.status)) ∧
    start_inference (stop_inference (initSession ["front"] 0)) =
      .error "Session not ready. Current status: stopped" := by
  refine ⟨?_, ?_, rfl⟩
  · intro s h
    simp [start_inference, h]
  · intro s h
    simp [start_inference, h]

/-- Witness for C4: the success branch at a concrete ready session, and the
failure at a concrete stopped session. -/
theorem claim_C4_witness :
    start_inference { initSession ["front"] 0 with status := "ready" } =
      .ok { { initSession ["front"] 0 with status := "ready" } with
            status := "running", has_inference_task := true } ∧
    start_inference (stop_inference (initSession ["front"] 0)) =
      .error "Session not ready. Current status: stopped" :=
  ⟨claim_C4_start_only_accepts_ready.1 _ rfl,
    claim_C4_start_only_accepts_ready.2.2⟩

/-- C5 (code behavior): `restart_inference` does perform stop and the state
reset — afterwards the action queue is empty, every camera freshness flag
and the joint flag are false, the joint state is zeroed and the prediction
capability has been reset — but the final `start_inference` always raises
"Session not ready. Current status: stopped", so the session never re-enters
"running"; it is left in "stopped". -/
theorem claim_C5_restart_resets_but_start_fails (now : ℤ)
    (s : InferenceSession) :
    ((_reset_session_state now (stop_inference s)).action_queue = [] ∧
      (_reset_session_state now (stop_inference s)).joints_updated = false ∧
      (∀ c ∈ s.camera_names,
        lookupAssoc
          (_reset_session_state now (stop_inference s)).images_updated c =
          some false) ∧
      (∀ x ∈ (_reset_session_state now (stop_inference s)).complete_joint_state,
        x = 0) ∧
      (_reset_session_state now (stop_inference s)).inference_engine =
        s.inference_engine.map (fun _ => { was_reset := true }) ∧
      (_reset_session_state now (stop_inference s)).status = "stopped") ∧
    restart_inference now s =
      .error "Session not ready. Current status: stopped" := by
  constructor
  · refine ⟨rfl, rfl, ?_, ?_, rfl, rfl⟩
    · intro c hc
      exact lookupAssoc_foldl_set_false s.camera_names _ c hc
    · intro x hx
      simp only [_reset_session_state, stop_inference, List.mem_map] at hx
      obtain ⟨y, _, hxy⟩ := hx
      exact hxy.symm
  · simp [restart_inference, start_inference, _reset_session_state,
      stop_inference]

/-- Witness for C5 on a concrete running session. -/
theorem claim_C5_witness :
    ((_reset_session_state 3
        (stop_inference sampleGateSession)).action_queue = [] ∧
      (_reset_session_state 3
        (stop_inference sampleGateSession)).joints_updated = false ∧
      (∀ c ∈ sampleGateSession.camera_names,
        lookupAssoc
          (_reset_session_state 3
            (stop_inference sampleGateSession)).images_updated c =
          some false) ∧
      (∀ x ∈ (_reset_session_state 3
          (stop_inference sampleGateSession)).complete_joint_state, x = 0) ∧
      (_reset_session_state 3
        (stop_inference sampleGateSession)).inference_engine =
        sampleGateSession.inference_engine.map
          (fun _ => { was_reset := true }) ∧
      (_reset_session_state 3
        (stop_inference sampleGateSession)).status = "stopped") ∧
    restart_inference 3 sampleGateSession =
      .error "Session not ready. Current status: stopped" :=
  claim_C5_restart_resets_but_start_fails 3 sampleGateSession

/-- A successful lookup exhibits a member of the list. -/
theorem lookupAssoc_eq_some_mem {α : Type} (l : List (String × α))
    (k : String) (v : α) (h : lookupAssoc l k = some v) : (k, v) ∈ l := by
  induction l with
  | nil => simp [lookupAssoc] at h
  | cons e t ih =>
    rw [lookupAssoc_cons] at h
    by_cases he : e.1 = k
    · rw [if_pos he] at h
      have : e = (k, v) := by
        obtain ⟨e1, e2⟩ := e
        simp only [Option.some.injEq] at h
        simp_all
      rw [← this]
      exact List.mem_cons_self e t
    · rw [if_neg he] at h
      exact List.mem_cons_of_mem _ (ih h)

/-- If no entry carries the key, the lookup fails. -/
theorem lookupAssoc_eq_none {α : Type} (l : List (String × α)) (k : String)
    (h : ∀ e ∈ l, e.1 ≠ k) : lookupAssoc l k = none := by
  induction l with
  | nil => simp [lookupAssoc]
  | cons e t ih =>
    rw [lookupAssoc_cons, if_neg (h e (List.mem_cons_self e t))]
    exact ih (fun e2 he2 => h e2 (List.mem_cons_of_mem _ he2))

/-- After one registry sweep, a session that was registered in state
"timeout" is gone: status queries answer not-found. -/
theorem get_session_status_after_sweep (m : SessionManager) (id : String)
    (s : InferenceSession) (hl : lookupAssoc m.sessions id = some s)
    (ht : s.status = "timeout") :
    get_session_status (periodic_cleanup_sweep m) id =
      .error ("Session " ++ id ++ " not found") := by
  have hmem : (id, s) ∈ m.sessions := lookupAssoc_eq_some_mem _ _ _ hl
  have hid : id ∈
      (m.sessions.filter (fun e => e.2.status = "timeout")).map
        (fun e => e.1) :=
    List.mem_map.mpr
      ⟨(id, s), List.mem_filter.mpr ⟨hmem, by simp [ht]⟩, rfl⟩
  have hnone :
      lookupAssoc (periodic_cleanup_sweep m).sessions id = none := by
    apply lookupAssoc_eq_none
    intro e he hcon
    have := (List.mem_filter.mp he).2
    simp only [decide_eq_true_eq] at this
    exact this (hcon ▸ hid)
  unfold get_session_status
  rw [hnone]

/-- C6 counterexample: `stop_inference` applied to a session in state
"timeout" moves it to "stopped" — a control operation does move the session
out of "timeout", so "timeout" is not terminal as claimed. -/
theorem claim_C6_counterexample :
    (stop_inference
      { initSession ["front"] 0 with status := "timeout" }).status =
      "stopped" := rfl

/-- C6 (amended): once in "timeout", `start_inference` fails and leaves the
state unchanged, and any registered session still in "timeout" is deleted by
the registry sweep, after which status queries for its id report not-found;
but `stop_inference` (and `restart_inference`, whose stop phase runs first)
unconditionally moves the session to "stopped", so "timeout" is terminal
only with respect to `start_inference` and deletion. -/
theorem claim_C6_amended_timeout_not_terminal (s : InferenceSession)
    (h : s.status = "timeout") :
    start_inference s = .error "Session not ready. Current status: timeout" ∧
    (∀ (m : SessionManager) (id : String),
      lookupAssoc m.sessions id = some s →
      get_session_status (periodic_cleanup_sweep m) id =
        .error ("Session " ++ id ++ " not found")) ∧
    (stop_inference s).status = "stopped" ∧
    (∀ now : ℤ, restart_inference now s =
      .error "Session not ready. Current status: stopped") := by
  refine ⟨?_, ?_, rfl, ?_⟩
  · simp [start_inference, h]
  · intro m id hl
    exact get_session_status_after_sweep m id s hl h
  · intro now
    simp [restart_inference, start_inference, _reset_session_state,
      stop_inference]

/-- Witness for C6 on a concrete timed-out session, including its deletion
by a concrete registry sweep. -/
theorem claim_C6_witness :
    (start_inference { initSession ["front"] 0 with status := "timeout" } =
      .error "Session not ready. Current status: timeout" ∧
    (∀ (m : SessionManager) (id : String),
      lookupAssoc m.sessions id =
        some { initSession ["front"] 0 with status := "timeout" } →
      get_session_status (periodic_cleanup_sweep m) id =
        .error ("Session " ++ id ++ " not found")) ∧
    (stop_inference
      { initSession ["front"] 0 with status := "timeout" }).status =
      "stopped" ∧
    (∀ now : ℤ, restart_inference now
        { initSession ["front"] 0 with status := "timeout" } =
      .error "Session not ready. Current status: stopped")) ∧
    get_session_status
      (periodic_cleanup_sweep
        ⟨[("tsess", { initSession ["front"] 0 with status := "timeout" })]⟩)
      "tsess" = .error ("Session " ++ "tsess" ++ " not found") :=
  ⟨claim_C6_amended_timeout_not_terminal
      { initSession ["front"] 0 with status := "timeout" } rfl,
    (claim_C6_amended_timeout_not_terminal
      { initSession ["front"] 0 with status := "timeout" } rfl).2.1
      ⟨[("tsess", { initSession ["front"] 0 with status := "timeout" })]⟩
      "tsess" rfl⟩

/-- C8: a session whose inactivity exceeds `timeout_seconds = 600` moves to
state "timeout" at a watchdog poll (polling every 60 s) and the watchdog
does not delete it; a poll before the threshold changes nothing; the
registry sweep (every 300 s) deletes every "timeout" session, after which
status queries for its id report not-found. -/
theorem claim_C8_timeout_then_sweep_deletes :
    timeout_seconds = 600 ∧ monitor_poll_seconds = 60 ∧
    cleanup_poll_seconds = 300 ∧
    (∀ (now : ℤ) (s : InferenceSession),
      now - s.last_activity_time > timeout_seconds →
      timeout_monitor_poll now s = ({ s with status := "timeout" }, true)) ∧
    (∀ (now : ℤ) (s : InferenceSession),
      ¬ now - s.last_activity_time > timeout_seconds →
      timeout_monitor_poll now s = (s, false)) ∧
    (∀ (m : SessionManager) (id : String) (s : InferenceSession),
      lookupAssoc m.sessions id = some s → s.status = "timeout" →
      get_session_status (periodic_cleanup_sweep m) id =
        .error ("Session " ++ id ++ " not found")) := by
  refine ⟨rfl, rfl, rfl, ?_, ?_, get_session_status_after_sweep⟩
  · intro now s h
    simp [timeout_monitor_poll, h]
  · intro now s h
    simp [timeout_monitor_poll, h]

/-- Witness for C8: a session idle for 601 s times out at the poll, and the
sweep then deletes it. -/
theorem claim_C8_witness :
    ((601 : ℤ) - (initSession ["front"] 0).last_activity_time >
      timeout_seconds ∧
    timeout_monitor_poll 601 (initSession ["front"] 0) =
      ({ initSession ["front"] 0 with status := "timeout" }, true)) ∧
    get_session_status
      (periodic_cleanup_sweep
        ⟨[("sess", { initSession ["front"] 0 with status := "timeout" })]⟩)
      "sess" = .error ("Session " ++ "sess" ++ " not found") :=
  ⟨⟨by decide,
    claim_C8_timeout_then_sweep_deletes.2.2.2.1 601 _ (by decide)⟩,
    claim_C8_timeout_then_sweep_deletes.2.2.2.2.2
      ⟨[("sess", { initSession ["front"] 0 with status := "timeout" })]⟩
      "sess" _ rfl rfl⟩

/-- A frame carrying a non-rgb24 format. -/
def jpegFrame : FrameData :=
  { width? := some 1, height? := some 1, format? := some "jpeg",
    data := [0, 0, 0, 0, 0] }

/-- C9 counterexample: a frame whose byte length (5) differs from
`width*height*3` (3) but whose format is not "rgb24" is discarded with NO
error-counter increment and no state change — the handler does not validate
the byte length of every incoming frame, only of rgb24 frames with positive
dimensions. -/
theorem claim_C9_counterexample :
    jpegFrame.data.length ≠
      jpegFrame.height?.getD 0 * jpegFrame.width?.getD 0 * 3 ∧
    on_frame_received "front" 5 jpegFrame (initSession ["front"] 0) =
      initSession ["front"] 0 ∧
    (on_frame_received "front" 5 jpegFrame
      (initSession ["front"] 0)).stats.errors =
      (initSession ["front"] 0).stats.errors := by
  refine ⟨by decide, rfl, rfl⟩

/-- C9 (amended): for every incoming rgb24 frame with positive width and
height, the handler validates the byte length against `width*height*3`; on
mismatch it increments the error counter and discards the frame, leaving
the stored image and freshness flag unchanged; on match it stores the
frame, sets the camera freshness flag, bumps its frame counter and
refreshes `last_activity_time`.  Frames of any other format or with
non-positive dimensions are discarded with no state change at all. -/
theorem claim_C9_amended_frame_validation (camera_name : String) (now : ℤ)
    (fd : FrameData) (s : InferenceSession) :
    (¬ (fd.format?.getD "rgb24" = "rgb24" ∧ 0 < fd.width?.getD 0 ∧
        0 < fd.height?.getD 0) →
      on_frame_received camera_name now fd s = s) ∧
    ((fd.format?.getD "rgb24" = "rgb24" ∧ 0 < fd.width?.getD 0 ∧
        0 < fd.height?.getD 0) →
      (fd.data.length ≠ fd.height?.getD 0 * fd.width?.getD 0 * 3 →
        on_frame_received camera_name now fd s =
          { s with
              stats := { s.stats with errors := s.stats.errors + 1 } }) ∧
      (fd.data.length = fd.height?.getD 0 * fd.width?.getD 0 * 3 →
        on_frame_received camera_name now fd s =
          { s with
              latest_images :=
                setAssoc s.latest_images camera_name
                  ⟨fd.data, fd.width?.getD 0, fd.height?.getD 0⟩
              images_updated := setAssoc s.images_updated camera_name true
              stats :=
                { s.stats with
                    images_received :=
                      setAssoc s.stats.images_received camera_name
                        ((lookupAssoc s.stats.images_received
                          camera_name).getD 0 + 1) }
              last_activity_time := now })) := by
  constructor
  · intro h
    simp only [on_frame_received]
    rw [if_neg h]
  · intro h
    constructor
    · intro hne
      simp only [on_frame_received]
      rw [if_pos h, if_pos hne]
    · intro heq
      simp only [on_frame_received]
      rw [if_pos h, if_neg (fun hcon => hcon heq)]

/-- Witness for C9: a well-formed 2x2 rgb24 frame is stored. -/
theorem claim_C9_witness :
    on_frame_received "front" 9 ⟨some 2, some 2, none, List.replicate 12 7⟩
      (initSession ["front"] 0) =
      { initSession ["front"] 0 with
          latest_images :=
            setAssoc (initSession ["front"] 0).latest_images "front"
              ⟨List.replicate 12 7, 2, 2⟩
          images_updated :=
            setAssoc (initSession ["front"] 0).images_updated "front" true
          stats :=
            { (initSession ["front"] 0).stats with
                images_received :=
                  setAssoc (initSession ["front"] 0).stats.images_received
                    "front"
                    ((lookupAssoc
                      (initSession ["front"] 0).stats.images_received
                      "front").getD 0 + 1) }
          last_activity_time := 9 } :=
  ((claim_C9_amended_frame_validation "front" 9
      ⟨some 2, some 2, none, List.replicate 12 7⟩
      (initSession ["front"] 0)).2
    ⟨rfl, by decide, by decide⟩).2 (by decide)

/-- The function `parse_joint_data` always yields exactly 6 values. -/
theorem parse_joint_data_length (jd : JointsData) :
    (parse_joint_data jd).length = 6 := by
  unfold parse_joint_data
  cases jointDictOf jd with
  | nonDict => simp
  | dict entries => simp [LEROBOT_JOINT_NAMES]

/-- The function `writeSlots` keeps the length of the base vector. -/
theorem writeSlots_length : ∀ (b v : List ℚ),
    (writeSlots b v).length = b.length := by
  intro b
  induction b with
  | nil => intro v; cases v <;> rfl
  | cons x bt ih =>
    intro v
    cases v with
    | nil => rfl
    | cons v0 vt => simp [writeSlots, ih]

/-- Overwriting all slots replaces the base with a prefix of the values. -/
theorem writeSlots_full : ∀ (b v : List ℚ), b.length ≤ v.length →
    writeSlots b v = v.take b.length := by
  intro b
  induction b with
  | nil =>
    intro v _
    cases v <;> rfl
  | cons x bt ih =>
    intro v h
    cases v with
    | nil => simp at h
    | cons v0 vt =>
      simp only [writeSlots, List.length_cons, List.take_succ_cons]
      rw [ih vt (by simpa using h)]

/-- C10: for every incoming joint message — including non-dict payloads and
dicts with no recognizable joint names — the joint handler records a
complete 6-value joint vector (zero for every slot it cannot parse), sets
`latest_joint_positions` (the joint-arrived condition of the readiness
gate) and the joint freshness flag, increments the joints-received counter
and refreshes `last_activity_time`; an unparseable payload still opens the
gate with an all-zero joint state. -/
theorem claim_C10_joint_handler (now : ℤ) (jd : JointsData)
    (s : InferenceSession) (h6 : s.complete_joint_state.length = 6) :
    (parse_joint_data jd).length = 6 ∧
    (on_joints_received now jd s).joints_updated = true ∧
    (on_joints_received now jd s).latest_joint_positions =
      some (on_joints_received now jd s).complete_joint_state ∧
    (on_joints_received now jd s).latest_joint_positions.isSome = true ∧
    (on_joints_received now jd s).complete_joint_state.length = 6 ∧
    (on_joints_received now jd s).stats.joints_received =
      s.stats.joints_received + 1 ∧
    (on_joints_received now jd s).last_activity_time = now ∧
    (jointDictOf jd = .nonDict →
      (on_joints_received now jd s).complete_joint_state =
        List.replicate 6 0) := by
  have hlen := parse_joint_data_length jd
  have hne : ¬ parse_joint_data jd = [] := by
    intro hcon
    rw [hcon] at hlen
    simp at hlen
  simp only [on_joints_received]
  rw [if_neg hne]
  refine ⟨hlen, rfl, rfl, rfl, ?_, rfl, rfl, ?_⟩
  · rw [writeSlots_length, h6]
  · intro hnd
    have hp : parse_joint_data jd = List.replicate 6 0 := by
      unfold parse_joint_data
      rw [hnd]
    rw [hp]
    rw [writeSlots_full _ _ (by simp [h6]), h6]
    simp

/-- Witness for C10: a non-dict joint payload on a fresh session. -/
theorem claim_C10_witness :
    (parse_joint_data (.plain .nonDict)).length = 6 ∧
    (on_joints_received 7 (.plain .nonDict)
      (initSession ["front"] 0)).joints_updated = true ∧
    (on_joints_received 7 (.plain .nonDict)
      (initSession ["front"] 0)).latest_joint_positions =
      some (on_joints_received 7 (.plain .nonDict)
        (initSession ["front"] 0)).complete_joint_state ∧
    (on_joints_received 7 (.plain .nonDict)
      (initSession ["front"] 0)).latest_joint_positions.isSome = true ∧
    (on_joints_received 7 (.plain .nonDict)
      (initSession ["front"] 0)).complete_joint_state.length = 6 ∧
    (on_joints_received 7 (.plain .nonDict)
      (initSession ["front"] 0)).stats.joints_received =
      (initSession ["front"] 0).stats.joints_received + 1 ∧
    (on_joints_received 7 (.plain .nonDict)
      (initSession ["front"] 0)).last_activity_time = 7 ∧
    (jointDictOf (.plain .nonDict) = .nonDict →
      (on_joints_received 7 (.plain .nonDict)
        (initSession ["front"] 0)).complete_joint_state =
        List.replicate 6 0) :=
  claim_C10_joint_handler 7 (.plain .nonDict) (initSession ["front"] 0)
    (by decide)

end RobotHub
